import Mathlib

/-!
Shallow embedding of the card-drawing UI component in `src/src/App.js`.

The component's React state hooks and refs become fields of `AppState`.
Browser timers are modelled explicitly: `liveIntervals` holds the
(handle, delay) pairs of repeating timers currently installed,
`pendingTimeouts` the (handle, delay) pairs of one-shot timeouts not yet
fired, and `nextHandle` supplies fresh timer handles (browser handles are
positive integers, so handles start at 1 and `null` refs are `none`).

Network interaction is modelled by passing the would-be response as an
explicit `FetchResult` argument: `.ok data` is a request whose body parsed
to `data`, `.err` is a network or parse failure (the code's `catch`).
A JSON body of `null` also lands in the `catch` in the source, because
`data.cards` then throws before any branch is taken, so it is covered by
`.err` as well.
-/

namespace CardDrawer

/-- One element of the `cards` array of the draw endpoint's response;
only its `image` field is read by the component. -/
structure Card where
  image : String
  deriving Repr, DecidableEq

/-- Parsed body of `GET /deck/{id}/draw/?count=1`. `cards := none` models a
response object with no `cards` property. -/
structure DrawData where
  cards : Option (List Card)
  remaining : Nat
  deriving Repr, DecidableEq

/-- Parsed body of `GET /deck/new/shuffle/?deck_count=1`. -/
structure DeckData where
  deck_id : String
  remaining : Nat
  deriving Repr, DecidableEq

/-- Parsed body of `GET /deck/{id}/shuffle/`. -/
structure ShuffleData where
  remaining : Nat
  deriving Repr, DecidableEq

/-- Outcome of a fetch: a parsed body, or a network/parse failure. -/
inductive FetchResult (α : Type) where
  | ok (data : α)
  | err
  deriving Repr, DecidableEq

/-- The complete state of the `App` component: the eight `useState` hooks,
the two `useRef` timer handles, and the ambient timer environment. -/
structure AppState where
  deckId : Option String
  remaining : Nat
  cardImage : Option String
  error : Option String
  errorMessageVisible : Bool
  isShuffling : Bool
  isDrawing : Bool
  shuffleSpeed : Nat
  intervalRef : Option Nat
  errorTimeoutRef : Option Nat
  liveIntervals : List (Nat × Nat)
  pendingTimeouts : List (Nat × Nat)
  nextHandle : Nat
  deriving Repr, DecidableEq

/-- Initial state: the `useState` initial values, both refs `null`, and no
timers installed. -/
def initState : AppState :=
  { deckId := none, remaining := 0, cardImage := none, error := none,
    errorMessageVisible := false, isShuffling := false, isDrawing := false,
    shuffleSpeed := 1000, intervalRef := none, errorTimeoutRef := none,
    liveIntervals := [], pendingTimeouts := [], nextHandle := 1 }

/-- Browser `setInterval`: installs a fresh repeating timer and returns its
handle. -/
def setIntervalSys (s : AppState) (delay : Nat) : AppState × Nat :=
  ({ s with liveIntervals := (s.nextHandle, delay) :: s.liveIntervals,
            nextHandle := s.nextHandle + 1 }, s.nextHandle)

/-- Browser `clearInterval`: cancels the repeating timer with the given
handle; `clearInterval(null)` is a no-op. -/
def clearIntervalSys (s : AppState) : Option Nat → AppState
  | none => s
  | some h => { s with liveIntervals := s.liveIntervals.filter (fun p => p.1 ≠ h) }

/-- Browser `setTimeout`: installs a fresh one-shot timer and returns its
handle. -/
def setTimeoutSys (s : AppState) (delay : Nat) : AppState × Nat :=
  ({ s with pendingTimeouts := (s.nextHandle, delay) :: s.pendingTimeouts,
            nextHandle := s.nextHandle + 1 }, s.nextHandle)

/-- Browser `clearTimeout`: cancels the pending timeout with the given
handle; `clearTimeout(null)` is a no-op. -/
def clearTimeoutSys (s : AppState) : Option Nat → AppState
  | none => s
  | some h => { s with pendingTimeouts := s.pendingTimeouts.filter (fun p => p.1 ≠ h) }

/-- The statement sequence `clearInterval(intervalRef.current);
intervalRef.current = null;` shared verbatim by three branches of
`drawCard`. -/
def stopInterval (s : AppState) : AppState :=
  let s1 := clearIntervalSys s s.intervalRef
  { s1 with intervalRef := none }

/-- The statement sequence `clearTimeout(errorTimeoutRef.current);
errorTimeoutRef.current = setTimeout(() => setErrorMessageVisible(false), 3000);`
shared verbatim by three branches of `drawCard`. -/
def scheduleHide (s : AppState) : AppState :=
  let s1 := clearTimeoutSys s s.errorTimeoutRef
  let p := setTimeoutSys s1 3000
  { p.1 with errorTimeoutRef := some p.2 }

/-- The callback of the `scheduleHide` timeout firing: the browser removes
the one-shot timer with handle `h` and runs `setErrorMessageVisible(false)`.
The ref is left holding the stale handle, as in the source. -/
def fireErrorHide (s : AppState) (h : Nat) : AppState :=
  { s with errorMessageVisible := false,
           pendingTimeouts := s.pendingTimeouts.filter (fun p => p.1 ≠ h) }

/-- The `fetchDeck` effect run once on mount: on success it stores
`deck_id` and `remaining`; on failure it only sets the error message. -/
def fetchDeck (s : AppState) : FetchResult DeckData → AppState
  | .ok data => { s with deckId := some data.deck_id, remaining := data.remaining }
  | .err => { s with error := some "Failed to fetch deck." }

/-- `drawCard` from `App.js`. The returned `Bool` records whether the
network request was issued (`fetch` reached). The `remaining === 0` guard
runs first and returns without fetching; otherwise the response `resp` is
consumed, with the source's branch order: non-empty `cards` array, missing
`cards` property, empty `cards` array, and the `catch` for failures. -/
def drawCard (s : AppState) (resp : FetchResult DrawData) : AppState × Bool :=
  if s.remaining = 0 then
    (scheduleHide (stopInterval
      { s with error := some "Error: no cards remaining!",
               errorMessageVisible := true, isDrawing := false }), false)
  else
    match resp with
    | .ok data =>
      match data.cards with
      | some (c :: _) =>
        ({ s with cardImage := some c.image, remaining := data.remaining }, true)
      | none =>
        (scheduleHide (stopInterval
          { s with error := some "Error: Invalid API response.",
                   errorMessageVisible := true }), true)
      | some [] =>
        (scheduleHide (stopInterval
          { s with error := some "Error: No cards available.",
                   errorMessageVisible := true, isDrawing := false }), true)
    | .err => ({ s with error := some "Failed to draw card." }, true)

/-- The `setIsShuffling(true)` that `shuffleDeck` runs before its `fetch`. -/
def shuffleStart (s : AppState) : AppState :=
  { s with isShuffling := true }

/-- The continuation of `shuffleDeck` once the response (or failure)
arrives. -/
def shuffleFinish (s : AppState) : FetchResult ShuffleData → AppState
  | .ok data => { s with remaining := data.remaining, cardImage := none,
                         isShuffling := false }
  | .err => { s with error := some "Failed to shuffle deck.", isShuffling := false }

/-- `shuffleDeck` from `App.js`: set the busy flag, request the reshuffle,
then handle the response or the failure. -/
def shuffleDeck (s : AppState) (resp : FetchResult ShuffleData) : AppState :=
  shuffleFinish (shuffleStart s) resp

/-- `handleDraw` from `App.js`, the polling toggle: a truthy
`intervalRef.current` (browser handles are positive, so truthy = non-null)
is cleared and polling marked inactive; a null one starts
`setInterval(drawCard, 1000)` and marks polling active. -/
def handleDraw (s : AppState) : AppState :=
  match s.intervalRef with
  | some h =>
    let s1 := clearIntervalSys s (some h)
    { s1 with intervalRef := none, isDrawing := false }
  | none =>
    let p := setIntervalSys s 1000
    { p.1 with intervalRef := some p.2, isDrawing := true }

/-- `handleShuffleSpeed` from `App.js`:
`setShuffleSpeed(shuffleSpeed === 1000 ? 500 : 1000)`. -/
def handleShuffleSpeed (s : AppState) : AppState :=
  { s with shuffleSpeed := if s.shuffleSpeed = 1000 then 500 else 1000 }

/-- The data-model invariant of the spec's `PollingState`: the interval
handle is set if and only if the polling-active flag is set. -/
def PollInv (s : AppState) : Prop :=
  s.intervalRef.isSome = s.isDrawing

instance (s : AppState) : Decidable (PollInv s) := by
  unfold PollInv; infer_instance

/-- Ownership invariant of the repeating timer: at most one is live, and
any live one is the 1000 ms timer tracked by `intervalRef`. -/
def IntervalInv (s : AppState) : Prop :=
  s.liveIntervals.length ≤ 1 ∧
    ∀ p ∈ s.liveIntervals, s.intervalRef = some p.1 ∧ p.2 = 1000

instance (s : AppState) : Decidable (IntervalInv s) := by
  unfold IntervalInv; infer_instance

/-- Ownership invariant of the error-hide timer: at most one timeout is
pending, and any pending one is the 3000 ms timer tracked by
`errorTimeoutRef`. -/
def HideTimerInv (s : AppState) : Prop :=
  s.pendingTimeouts.length ≤ 1 ∧
    ∀ p ∈ s.pendingTimeouts, s.errorTimeoutRef = some p.1 ∧ p.2 = 3000

instance (s : AppState) : Decidable (HideTimerInv s) := by
  unfold HideTimerInv; infer_instance

/-! Helper lemmas about the timer environment and the shared statement
sequences. -/

lemma stopInterval_intervalRef (s : AppState) : (stopInterval s).intervalRef = none := by
  unfold stopInterval clearIntervalSys
  cases s.intervalRef <;> rfl

lemma stopInterval_fields (s : AppState) :
    (stopInterval s).deckId = s.deckId ∧
    (stopInterval s).remaining = s.remaining ∧
    (stopInterval s).cardImage = s.cardImage ∧
    (stopInterval s).error = s.error ∧
    (stopInterval s).errorMessageVisible = s.errorMessageVisible ∧
    (stopInterval s).isShuffling = s.isShuffling ∧
    (stopInterval s).isDrawing = s.isDrawing ∧
    (stopInterval s).shuffleSpeed = s.shuffleSpeed ∧
    (stopInterval s).errorTimeoutRef = s.errorTimeoutRef ∧
    (stopInterval s).pendingTimeouts = s.pendingTimeouts ∧
    (stopInterval s).nextHandle = s.nextHandle := by
  unfold stopInterval clearIntervalSys
  cases s.intervalRef <;> exact ⟨rfl, rfl, rfl, rfl, rfl, rfl, rfl, rfl, rfl, rfl, rfl⟩

/-- Under the ownership invariant the live-interval list is explicit:
empty, or the single tracked 1000 ms timer. -/
lemma intervalInv_cases (s : AppState) (hinv : IntervalInv s) :
    s.liveIntervals = [] ∨
      ∃ k, s.intervalRef = some k ∧ s.liveIntervals = [(k, 1000)] := by
  obtain ⟨hlen, hall⟩ := hinv
  cases hl : s.liveIntervals with
  | nil => exact Or.inl rfl
  | cons p t =>
    refine Or.inr ⟨p.1, (hall p (by rw [hl]; exact List.mem_cons_self p t)).1, ?_⟩
    have ht : t = [] := by
      rw [hl, List.length_cons] at hlen
      exact List.eq_nil_of_length_eq_zero (Nat.le_zero.mp (Nat.succ_le_succ_iff.mp hlen))
    have h2 := (hall p (by rw [hl]; exact List.mem_cons_self p t)).2
    rw [ht]
    cases p with
    | mk a b => simp at h2 ⊢; exact h2

/-- Under the ownership invariant the pending-timeout list is explicit:
empty, or the single tracked 3000 ms timeout. -/
lemma hideTimerInv_cases (s : AppState) (hinv : HideTimerInv s) :
    s.pendingTimeouts = [] ∨
      ∃ k, s.errorTimeoutRef = some k ∧ s.pendingTimeouts = [(k, 3000)] := by
  obtain ⟨hlen, hall⟩ := hinv
  cases hl : s.pendingTimeouts with
  | nil => exact Or.inl rfl
  | cons p t =>
    refine Or.inr ⟨p.1, (hall p (by rw [hl]; exact List.mem_cons_self p t)).1, ?_⟩
    have ht : t = [] := by
      rw [hl, List.length_cons] at hlen
      exact List.eq_nil_of_length_eq_zero (Nat.le_zero.mp (Nat.succ_le_succ_iff.mp hlen))
    have h2 := (hall p (by rw [hl]; exact List.mem_cons_self p t)).2
    rw [ht]
    cases p with
    | mk a b => simp at h2 ⊢; exact h2

lemma stopInterval_live_of_inv (s : AppState) (hinv : IntervalInv s) :
    (stopInterval s).liveIntervals = [] := by
  rcases intervalInv_cases s hinv with hl | ⟨k, hk, hl⟩
  · unfold stopInterval clearIntervalSys
    cases s.intervalRef <;> simp [hl]
  · unfold stopInterval clearIntervalSys
    rw [hk]
    simp [hl]

lemma scheduleHide_errorTimeoutRef (s : AppState) :
    (scheduleHide s).errorTimeoutRef = some s.nextHandle := by
  unfold scheduleHide clearTimeoutSys setTimeoutSys
  cases s.errorTimeoutRef <;> rfl

lemma scheduleHide_nextHandle (s : AppState) :
    (scheduleHide s).nextHandle = s.nextHandle + 1 := by
  unfold scheduleHide clearTimeoutSys setTimeoutSys
  cases s.errorTimeoutRef <;> rfl

lemma scheduleHide_mem_pending (s : AppState) :
    (s.nextHandle, 3000) ∈ (scheduleHide s).pendingTimeouts := by
  unfold scheduleHide clearTimeoutSys setTimeoutSys
  cases s.errorTimeoutRef <;> exact List.mem_cons_self _ _

lemma scheduleHide_fields (s : AppState) :
    (scheduleHide s).deckId = s.deckId ∧
    (scheduleHide s).remaining = s.remaining ∧
    (scheduleHide s).cardImage = s.cardImage ∧
    (scheduleHide s).error = s.error ∧
    (scheduleHide s).errorMessageVisible = s.errorMessageVisible ∧
    (scheduleHide s).isShuffling = s.isShuffling ∧
    (scheduleHide s).isDrawing = s.isDrawing ∧
    (scheduleHide s).shuffleSpeed = s.shuffleSpeed ∧
    (scheduleHide s).intervalRef = s.intervalRef ∧
    (scheduleHide s).liveIntervals = s.liveIntervals := by
  unfold scheduleHide clearTimeoutSys setTimeoutSys
  cases s.errorTimeoutRef <;> exact ⟨rfl, rfl, rfl, rfl, rfl, rfl, rfl, rfl, rfl, rfl⟩

lemma scheduleHide_pending_of_inv (s : AppState) (hinv : HideTimerInv s) :
    (scheduleHide s).pendingTimeouts = [(s.nextHandle, 3000)] := by
  rcases hideTimerInv_cases s hinv with hl | ⟨k, hk, hl⟩
  · unfold scheduleHide clearTimeoutSys setTimeoutSys
    cases s.errorTimeoutRef <;> simp [hl]
  · unfold scheduleHide clearTimeoutSys setTimeoutSys
    rw [hk]
    simp [hl]

lemma scheduleHide_hideTimerInv (s : AppState) (hinv : HideTimerInv s) :
    HideTimerInv (scheduleHide s) := by
  constructor
  · rw [scheduleHide_pending_of_inv s hinv]
    exact Nat.le_refl 1
  · intro p hp
    rw [scheduleHide_pending_of_inv s hinv] at hp
    rw [scheduleHide_errorTimeoutRef]
    rcases List.mem_singleton.mp hp with rfl
    exact ⟨rfl, rfl⟩

/-- Transfer of the hide-timer invariant along states with the same
pending-timeout list and timeout ref. -/
lemma hideTimerInv_of_eq {s t : AppState} (hp : t.pendingTimeouts = s.pendingTimeouts)
    (hr : t.errorTimeoutRef = s.errorTimeoutRef) (hinv : HideTimerInv s) :
    HideTimerInv t := by
  unfold HideTimerInv at hinv ⊢
  rw [hp, hr]
  exact hinv

lemma fireErrorHide_hideTimerInv (s : AppState) (h : Nat) (hinv : HideTimerInv s) :
    HideTimerInv (fireErrorHide s h) := by
  obtain ⟨hlen, hall⟩ := hinv
  constructor
  · exact Nat.le_trans (List.length_filter_le _ _) hlen
  · intro p hp
    exact hall p (List.mem_of_mem_filter hp)

/-! Branch equations for `drawCard`. -/

lemma drawCard_zero (s : AppState) (resp : FetchResult DrawData) (h0 : s.remaining = 0) :
    drawCard s resp = (scheduleHide (stopInterval
      { s with error := some "Error: no cards remaining!",
               errorMessageVisible := true, isDrawing := false }), false) := by
  unfold drawCard
  rw [if_pos h0]

lemma drawCard_success (s : AppState) (c : Card) (cs : List Card) (r : Nat)
    (h0 : s.remaining ≠ 0) :
    drawCard s (.ok ⟨some (c :: cs), r⟩) =
      ({ s with cardImage := some c.image, remaining := r }, true) := by
  unfold drawCard
  rw [if_neg h0]

lemma drawCard_missing (s : AppState) (r : Nat) (h0 : s.remaining ≠ 0) :
    drawCard s (.ok ⟨none, r⟩) = (scheduleHide (stopInterval
      { s with error := some "Error: Invalid API response.",
               errorMessageVisible := true }), true) := by
  unfold drawCard
  rw [if_neg h0]

lemma drawCard_empty (s : AppState) (r : Nat) (h0 : s.remaining ≠ 0) :
    drawCard s (.ok ⟨some [], r⟩) = (scheduleHide (stopInterval
      { s with error := some "Error: No cards available.",
               errorMessageVisible := true, isDrawing := false }), true) := by
  unfold drawCard
  rw [if_neg h0]

lemma drawCard_fail (s : AppState) (h0 : s.remaining ≠ 0) :
    drawCard s .err = ({ s with error := some "Failed to draw card." }, true) := by
  unfold drawCard
  rw [if_neg h0]

/-! Branch equations for `handleDraw`. -/

lemma handleDraw_some (s : AppState) (h : Nat) (href : s.intervalRef = some h) :
    handleDraw s = { s with intervalRef := none, isDrawing := false,
                            liveIntervals := s.liveIntervals.filter (fun p => p.1 ≠ h) } := by
  unfold handleDraw
  rw [href]
  rfl

lemma handleDraw_none (s : AppState) (href : s.intervalRef = none) :
    handleDraw s = { s with intervalRef := some s.nextHandle, isDrawing := true,
                            liveIntervals := (s.nextHandle, 1000) :: s.liveIntervals,
                            nextHandle := s.nextHandle + 1 } := by
  unfold handleDraw
  rw [href]
  rfl

lemma drawCard_zero_fst (s : AppState) (resp : FetchResult DrawData) (h0 : s.remaining = 0) :
    (drawCard s resp).1 = scheduleHide (stopInterval
      { s with error := some "Error: no cards remaining!",
               errorMessageVisible := true, isDrawing := false }) := by
  rw [drawCard_zero s resp h0]

lemma drawCard_zero_snd (s : AppState) (resp : FetchResult DrawData) (h0 : s.remaining = 0) :
    (drawCard s resp).2 = false := by
  rw [drawCard_zero s resp h0]

lemma drawCard_success_fst (s : AppState) (c : Card) (cs : List Card) (r : Nat)
    (h0 : s.remaining ≠ 0) :
    (drawCard s (.ok ⟨some (c :: cs), r⟩)).1 =
      { s with cardImage := some c.image, remaining := r } := by
  rw [drawCard_success s c cs r h0]

lemma drawCard_success_snd (s : AppState) (c : Card) (cs : List Card) (r : Nat)
    (h0 : s.remaining ≠ 0) :
    (drawCard s (.ok ⟨some (c :: cs), r⟩)).2 = true := by
  rw [drawCard_success s c cs r h0]

lemma drawCard_missing_fst (s : AppState) (r : Nat) (h0 : s.remaining ≠ 0) :
    (drawCard s (.ok ⟨none, r⟩)).1 = scheduleHide (stopInterval
      { s with error := some "Error: Invalid API response.",
               errorMessageVisible := true }) := by
  rw [drawCard_missing s r h0]

lemma drawCard_empty_fst (s : AppState) (r : Nat) (h0 : s.remaining ≠ 0) :
    (drawCard s (.ok ⟨some [], r⟩)).1 = scheduleHide (stopInterval
      { s with error := some "Error: No cards available.",
               errorMessageVisible := true, isDrawing := false }) := by
  rw [drawCard_empty s r h0]

lemma drawCard_fail_fst (s : AppState) (h0 : s.remaining ≠ 0) :
    (drawCard s .err).1 = { s with error := some "Failed to draw card." } := by
  rw [drawCard_fail s h0]

/-- Combined behaviour of the shared `clearInterval; intervalRef = null;
clearTimeout; setTimeout(..., 3000)` sequence, under the interval-ownership
invariant. -/
lemma scheduleHide_stopInterval_spec (t : AppState) (hinv : IntervalInv t) :
    (scheduleHide (stopInterval t)).deckId = t.deckId ∧
    (scheduleHide (stopInterval t)).remaining = t.remaining ∧
    (scheduleHide (stopInterval t)).cardImage = t.cardImage ∧
    (scheduleHide (stopInterval t)).error = t.error ∧
    (scheduleHide (stopInterval t)).errorMessageVisible = t.errorMessageVisible ∧
    (scheduleHide (stopInterval t)).isDrawing = t.isDrawing ∧
    (scheduleHide (stopInterval t)).intervalRef = none ∧
    (scheduleHide (stopInterval t)).liveIntervals = [] ∧
    (scheduleHide (stopInterval t)).errorTimeoutRef = some t.nextHandle ∧
    (t.nextHandle, 3000) ∈ (scheduleHide (stopInterval t)).pendingTimeouts := by
  obtain ⟨sd, sr, sc, se, sv, ss, sdr, ssp, sto, sp, snh⟩ := stopInterval_fields t
  obtain ⟨gd, gr, gc, ge, gv, gs, gdr, gsp, gint, glive⟩ := scheduleHide_fields (stopInterval t)
  refine ⟨gd.trans sd, gr.trans sr, gc.trans sc, ge.trans se, gv.trans sv, gdr.trans sdr,
    gint.trans (stopInterval_intervalRef t), glive.trans (stopInterval_live_of_inv t hinv),
    (scheduleHide_errorTimeoutRef (stopInterval t)).trans (by rw [snh]), ?_⟩
  have hm := scheduleHide_mem_pending (stopInterval t)
  rw [snh] at hm
  exact hm

/-- Polling-related fields of the shared banner sequence, with no invariant
needed. -/
lemma scheduleHide_stopInterval_pollState (t : AppState) :
    (scheduleHide (stopInterval t)).intervalRef = none ∧
    (scheduleHide (stopInterval t)).isDrawing = t.isDrawing := by
  obtain ⟨-, -, -, -, -, -, sdr, -, -, -, -⟩ := stopInterval_fields t
  obtain ⟨-, -, -, -, -, -, gdr, -, gint, -⟩ := scheduleHide_fields (stopInterval t)
  exact ⟨gint.trans (stopInterval_intervalRef t), gdr.trans sdr⟩

/-- A concrete reachable state: deck loaded, three cards left, polling
active through timer handle 1. -/
def pollingState : AppState :=
  { initState with deckId := some "3p40paa87x90", remaining := 3, isDrawing := true,
                   intervalRef := some 1, liveIntervals := [(1, 1000)], nextHandle := 2 }

/-- A concrete reachable state: a visible error banner with its pending
hide timer, and two cards left. -/
def bannerState : AppState :=
  { initState with deckId := some "3p40paa87x90", remaining := 2,
                   error := some "Error: No cards available.",
                   errorMessageVisible := true, errorTimeoutRef := some 2,
                   pendingTimeouts := [(2, 3000)], nextHandle := 3 }

/-- A concrete reachable state: deck exhausted while polling is still
active. -/
def exhaustedPollingState : AppState :=
  { initState with deckId := some "3p40paa87x90", isDrawing := true, intervalRef := some 1,
                   liveIntervals := [(1, 1000)], nextHandle := 2 }

/-- C1: with `remaining = 0`, `drawCard` issues no network request, stops
polling (the repeating timer is cleared and `isDrawing` set false),
displays the "no cards remaining" error, and schedules its auto-hide
3000 ms timeout. -/
theorem drawCard_exhausted_stops_polling (s : AppState) (resp : FetchResult DrawData)
    (h0 : s.remaining = 0) (hint : IntervalInv s) :
    (drawCard s resp).2 = false ∧
    (drawCard s resp).1.isDrawing = false ∧
    (drawCard s resp).1.intervalRef = none ∧
    (drawCard s resp).1.liveIntervals = [] ∧
    (drawCard s resp).1.error = some "Error: no cards remaining!" ∧
    (drawCard s resp).1.errorMessageVisible = true ∧
    (drawCard s resp).1.errorTimeoutRef = some s.nextHandle ∧
    (s.nextHandle, 3000) ∈ (drawCard s resp).1.pendingTimeouts := by
  have hinv' : IntervalInv ({ s with error := some "Error: no cards remaining!",
                                     errorMessageVisible := true, isDrawing := false }) := hint
  obtain ⟨-, -, -, he, hv, hd, hi, hl, ht, hm⟩ := scheduleHide_stopInterval_spec _ hinv'
  rw [drawCard_zero_fst s resp h0, drawCard_zero_snd s resp h0]
  exact ⟨rfl, hd, hi, hl, he, hv, ht, hm⟩

/-- C1 witness: the exhausted, actively-polling concrete state. -/
theorem drawCard_exhausted_stops_polling_witness :
    exhaustedPollingState.remaining = 0 ∧ IntervalInv exhaustedPollingState ∧
    ((drawCard exhaustedPollingState FetchResult.err).2 = false ∧
     (drawCard exhaustedPollingState FetchResult.err).1.isDrawing = false ∧
     (drawCard exhaustedPollingState FetchResult.err).1.intervalRef = none ∧
     (drawCard exhaustedPollingState FetchResult.err).1.liveIntervals = [] ∧
     (drawCard exhaustedPollingState FetchResult.err).1.error =
       some "Error: no cards remaining!" ∧
     (drawCard exhaustedPollingState FetchResult.err).1.errorMessageVisible = true ∧
     (drawCard exhaustedPollingState FetchResult.err).1.errorTimeoutRef =
       some exhaustedPollingState.nextHandle ∧
     (exhaustedPollingState.nextHandle, 3000) ∈
       (drawCard exhaustedPollingState FetchResult.err).1.pendingTimeouts) :=
  ⟨by decide, by decide,
    drawCard_exhausted_stops_polling exhaustedPollingState FetchResult.err
      (by decide) (by decide)⟩

/-- C2 counterexample: from an actively polling state that satisfies the
invariant, a draw whose response lacks the `cards` field clears the
interval handle but leaves `isDrawing` true, so the iff fails after this
operation. -/
theorem pollInv_not_preserved_by_malformed_draw :
    PollInv pollingState ∧
    (drawCard pollingState (.ok ⟨none, 3⟩)).1.intervalRef = none ∧
    (drawCard pollingState (.ok ⟨none, 3⟩)).1.isDrawing = true ∧
    ¬ PollInv (drawCard pollingState (.ok ⟨none, 3⟩)).1 :=
  ⟨by decide, by decide, by decide, by decide⟩

/-- C2 (amended): the polling-state invariant (`intervalRef` set iff
`isDrawing`) is preserved by initialize, shuffle, togglePolling,
toggleShuffleSpeedPreference, the hide-timeout callback, and every branch
of `drawCard` except the malformed-response branch, which clears the
interval handle but leaves `isDrawing` unchanged. -/
theorem pollInv_preservation (s : AppState) (hp : PollInv s) :
    (∀ r, PollInv (fetchDeck s r)) ∧
    (∀ r, PollInv (shuffleDeck s r)) ∧
    PollInv (handleDraw s) ∧
    PollInv (handleShuffleSpeed s) ∧
    (∀ h, PollInv (fireErrorHide s h)) ∧
    (∀ resp, s.remaining = 0 → PollInv (drawCard s resp).1) ∧
    (s.remaining ≠ 0 → PollInv (drawCard s .err).1) ∧
    (∀ c cs r, s.remaining ≠ 0 → PollInv (drawCard s (.ok ⟨some (c :: cs), r⟩)).1) ∧
    (∀ r, s.remaining ≠ 0 → PollInv (drawCard s (.ok ⟨some [], r⟩)).1) ∧
    (∀ r, s.remaining ≠ 0 →
      (drawCard s (.ok ⟨none, r⟩)).1.intervalRef = none ∧
      (drawCard s (.ok ⟨none, r⟩)).1.isDrawing = s.isDrawing) := by
  refine ⟨?_, ?_, ?_, ?_, ?_, ?_, ?_, ?_, ?_, ?_⟩
  · intro r; cases r <;> exact hp
  · intro r; cases r <;> exact hp
  · cases href : s.intervalRef with
    | some h =>
      rw [handleDraw_some s h href]
      rfl
    | none =>
      rw [handleDraw_none s href]
      rfl
  · exact hp
  · intro h; exact hp
  · intro resp h0
    have hx := scheduleHide_stopInterval_pollState
      { s with error := some "Error: no cards remaining!",
               errorMessageVisible := true, isDrawing := false }
    unfold PollInv
    rw [drawCard_zero_fst s resp h0, hx.1, hx.2]
    rfl
  · intro h0
    rw [drawCard_fail_fst s h0]
    exact hp
  · intro c cs r h0
    rw [drawCard_success_fst s c cs r h0]
    exact hp
  · intro r h0
    have hx := scheduleHide_stopInterval_pollState
      { s with error := some "Error: No cards available.",
               errorMessageVisible := true, isDrawing := false }
    unfold PollInv
    rw [drawCard_empty_fst s r h0, hx.1, hx.2]
    rfl
  · intro r h0
    have hx := scheduleHide_stopInterval_pollState
      { s with error := some "Error: Invalid API response.",
               errorMessageVisible := true }
    rw [drawCard_missing_fst s r h0]
    exact ⟨hx.1, hx.2⟩

/-- C2 witness: the amended preservation theorem applied at the concrete
polling state. -/
theorem pollInv_preservation_witness :
    PollInv pollingState ∧ PollInv (handleDraw pollingState) :=
  ⟨by decide, (pollInv_preservation pollingState (by decide)).2.2.1⟩

/-- Pending-timeout list of the shared banner sequence, under the
hide-timer ownership invariant. -/
lemma scheduleHide_stopInterval_pending (t : AppState) (hinv : HideTimerInv t) :
    (scheduleHide (stopInterval t)).pendingTimeouts = [(t.nextHandle, 3000)] ∧
    HideTimerInv (scheduleHide (stopInterval t)) := by
  obtain ⟨-, -, -, -, -, -, -, -, sto, sp, snh⟩ := stopInterval_fields t
  have hinv' : HideTimerInv (stopInterval t) := hideTimerInv_of_eq sp sto hinv
  constructor
  · rw [scheduleHide_pending_of_inv _ hinv', snh]
  · exact scheduleHide_hideTimerInv _ hinv'

/-- C3: for draws that reach the network, a response missing the card-list
field and a response with an empty card list both stop the polling timer
and show an error message, while a network/parse failure sets the message
"Failed to draw card." and leaves the polling timer running. -/
theorem drawCard_error_branches (s : AppState) (h0 : s.remaining ≠ 0)
    (hint : IntervalInv s) :
    (∀ r, (drawCard s (.ok ⟨none, r⟩)).2 = true ∧
      (drawCard s (.ok ⟨none, r⟩)).1.intervalRef = none ∧
      (drawCard s (.ok ⟨none, r⟩)).1.liveIntervals = [] ∧
      (drawCard s (.ok ⟨none, r⟩)).1.error = some "Error: Invalid API response." ∧
      (drawCard s (.ok ⟨none, r⟩)).1.errorMessageVisible = true) ∧
    (∀ r, (drawCard s (.ok ⟨some [], r⟩)).2 = true ∧
      (drawCard s (.ok ⟨some [], r⟩)).1.intervalRef = none ∧
      (drawCard s (.ok ⟨some [], r⟩)).1.liveIntervals = [] ∧
      (drawCard s (.ok ⟨some [], r⟩)).1.error = some "Error: No cards available." ∧
      (drawCard s (.ok ⟨some [], r⟩)).1.errorMessageVisible = true) ∧
    ((drawCard s .err).2 = true ∧
     (drawCard s .err).1.intervalRef = s.intervalRef ∧
     (drawCard s .err).1.liveIntervals = s.liveIntervals ∧
     (drawCard s .err).1.error = some "Failed to draw card.") := by
  refine ⟨?_, ?_, ?_⟩
  · intro r
    have hinv' : IntervalInv ({ s with error := some "Error: Invalid API response.",
                                       errorMessageVisible := true }) := hint
    obtain ⟨-, -, -, he, hv, -, hi, hl, -, -⟩ := scheduleHide_stopInterval_spec _ hinv'
    rw [drawCard_missing s r h0]
    exact ⟨rfl, hi, hl, he, hv⟩
  · intro r
    have hinv' : IntervalInv ({ s with error := some "Error: No cards available.",
                                       errorMessageVisible := true, isDrawing := false }) := hint
    obtain ⟨-, -, -, he, hv, -, hi, hl, -, -⟩ := scheduleHide_stopInterval_spec _ hinv'
    rw [drawCard_empty s r h0]
    exact ⟨rfl, hi, hl, he, hv⟩
  · rw [drawCard_fail s h0]
    exact ⟨rfl, rfl, rfl, rfl⟩

/-- C3 witness: a draw failure at the concrete polling state leaves the
polling timer untouched. -/
theorem drawCard_error_branches_witness :
    pollingState.remaining ≠ 0 ∧ IntervalInv pollingState ∧
    (drawCard pollingState FetchResult.err).2 = true :=
  ⟨by decide, by decide,
    (drawCard_error_branches pollingState (by decide) (by decide)).2.2.1⟩

/-- C4 counterexample: a shuffle failure sets the error message but never
makes it visible and never schedules a hide timer, so not every failure
path shows and auto-hides an error. -/
theorem errorBanner_missing_on_shuffle_failure :
    (shuffleDeck initState FetchResult.err).error = some "Failed to shuffle deck." ∧
    (shuffleDeck initState FetchResult.err).errorMessageVisible = false ∧
    (shuffleDeck initState FetchResult.err).pendingTimeouts = [] :=
  ⟨by decide, by decide, by decide⟩

/-- C4 (amended): only three failure paths — draw exhausted, draw
malformed response, draw empty card list — make the error visible and
schedule the 3-second auto-hide, each first cancelling any pending hide
timer so exactly one 3000 ms timeout is pending afterwards; deck-fetch
failure, draw network failure and shuffle failure set the message without
touching visibility or timers; and the at-most-one-pending-hide-timer
invariant is preserved by every operation. -/
theorem errorHide_lifecycle (s : AppState) (hinv : HideTimerInv s) :
    (∀ resp, s.remaining = 0 →
      (drawCard s resp).1.errorMessageVisible = true ∧
      (drawCard s resp).1.errorTimeoutRef = some s.nextHandle ∧
      (drawCard s resp).1.pendingTimeouts = [(s.nextHandle, 3000)]) ∧
    (∀ r, s.remaining ≠ 0 →
      (drawCard s (.ok ⟨none, r⟩)).1.errorMessageVisible = true ∧
      (drawCard s (.ok ⟨none, r⟩)).1.pendingTimeouts = [(s.nextHandle, 3000)]) ∧
    (∀ r, s.remaining ≠ 0 →
      (drawCard s (.ok ⟨some [], r⟩)).1.errorMessageVisible = true ∧
      (drawCard s (.ok ⟨some [], r⟩)).1.pendingTimeouts = [(s.nextHandle, 3000)]) ∧
    ((fetchDeck s .err).error = some "Failed to fetch deck." ∧
     (fetchDeck s .err).errorMessageVisible = s.errorMessageVisible ∧
     (fetchDeck s .err).pendingTimeouts = s.pendingTimeouts) ∧
    (s.remaining ≠ 0 →
      (drawCard s .err).1.error = some "Failed to draw card." ∧
      (drawCard s .err).1.errorMessageVisible = s.errorMessageVisible ∧
      (drawCard s .err).1.pendingTimeouts = s.pendingTimeouts) ∧
    ((shuffleDeck s .err).error = some "Failed to shuffle deck." ∧
     (shuffleDeck s .err).errorMessageVisible = s.errorMessageVisible ∧
     (shuffleDeck s .err).pendingTimeouts = s.pendingTimeouts) ∧
    (∀ r, HideTimerInv (fetchDeck s r)) ∧
    (∀ resp, HideTimerInv (drawCard s resp).1) ∧
    (∀ r, HideTimerInv (shuffleDeck s r)) ∧
    HideTimerInv (handleDraw s) ∧
    HideTimerInv (handleShuffleSpeed s) ∧
    (∀ h, HideTimerInv (fireErrorHide s h)) := by
  refine ⟨?_, ?_, ?_, ⟨rfl, rfl, rfl⟩, ?_, ⟨rfl, rfl, rfl⟩, ?_, ?_, ?_, ?_, ?_, ?_⟩
  · intro resp h0
    have hinv' : HideTimerInv ({ s with error := some "Error: no cards remaining!",
                                        errorMessageVisible := true, isDrawing := false }) := hinv
    obtain ⟨hpend, -⟩ := scheduleHide_stopInterval_pending _ hinv'
    rw [drawCard_zero_fst s resp h0]
    refine ⟨?_, ?_, hpend⟩
    · exact ((scheduleHide_fields _).2.2.2.2.1).trans ((stopInterval_fields _).2.2.2.2.1)
    · exact (scheduleHide_errorTimeoutRef _).trans
        (congrArg some ((stopInterval_fields _).2.2.2.2.2.2.2.2.2.2))
  · intro r h0
    have hinv' : HideTimerInv ({ s with error := some "Error: Invalid API response.",
                                        errorMessageVisible := true }) := hinv
    obtain ⟨hpend, -⟩ := scheduleHide_stopInterval_pending _ hinv'
    rw [drawCard_missing_fst s r h0]
    refine ⟨?_, hpend⟩
    exact ((scheduleHide_fields _).2.2.2.2.1).trans ((stopInterval_fields _).2.2.2.2.1)
  · intro r h0
    have hinv' : HideTimerInv ({ s with error := some "Error: No cards available.",
                                        errorMessageVisible := true, isDrawing := false }) := hinv
    obtain ⟨hpend, -⟩ := scheduleHide_stopInterval_pending _ hinv'
    rw [drawCard_empty_fst s r h0]
    refine ⟨?_, hpend⟩
    exact ((scheduleHide_fields _).2.2.2.2.1).trans ((stopInterval_fields _).2.2.2.2.1)
  · intro h0
    rw [drawCard_fail_fst s h0]
    exact ⟨rfl, rfl, rfl⟩
  · intro r
    cases r <;> exact hideTimerInv_of_eq rfl rfl hinv
  · intro resp
    by_cases h0 : s.remaining = 0
    · have hz : HideTimerInv ({ s with error := some "Error: no cards remaining!",
                                       errorMessageVisible := true, isDrawing := false }) := hinv
      rw [drawCard_zero_fst s resp h0]
      exact (scheduleHide_stopInterval_pending _ hz).2
    · cases resp with
      | err =>
        rw [drawCard_fail_fst s h0]
        exact hideTimerInv_of_eq rfl rfl hinv
      | ok d =>
        obtain ⟨cards, r⟩ := d
        cases cards with
        | none =>
          have hz : HideTimerInv ({ s with error := some "Error: Invalid API response.",
                                           errorMessageVisible := true }) := hinv
          rw [drawCard_missing_fst s r h0]
          exact (scheduleHide_stopInterval_pending _ hz).2
        | some l =>
          cases l with
          | nil =>
            have hz : HideTimerInv ({ s with error := some "Error: No cards available.",
                                             errorMessageVisible := true, isDrawing := false }) := hinv
            rw [drawCard_empty_fst s r h0]
            exact (scheduleHide_stopInterval_pending _ hz).2
          | cons c cs =>
            rw [drawCard_success_fst s c cs r h0]
            exact hideTimerInv_of_eq rfl rfl hinv
  · intro r
    cases r <;> exact hideTimerInv_of_eq rfl rfl hinv
  · cases href : s.intervalRef with
    | some h =>
      rw [handleDraw_some s h href]
      exact hideTimerInv_of_eq rfl rfl hinv
    | none =>
      rw [handleDraw_none s href]
      exact hideTimerInv_of_eq rfl rfl hinv
  · exact hideTimerInv_of_eq rfl rfl hinv
  · intro h
    exact fireErrorHide_hideTimerInv s h hinv

/-- C4 witness: the amended lifecycle at the concrete polling state, for
the malformed-response branch. -/
theorem errorHide_lifecycle_witness :
    HideTimerInv pollingState ∧
    (drawCard pollingState (.ok ⟨none, 3⟩)).1.pendingTimeouts =
      [(pollingState.nextHandle, 3000)] :=
  ⟨by decide, ((errorHide_lifecycle pollingState (by decide)).2.1 3 (by decide)).2⟩

/-- C5: a draw whose response contains a non-empty card list replaces the
card image with the first card's image URL and the remaining count with
the value from the response. -/
theorem drawCard_success_updates (s : AppState) (c : Card) (cs : List Card) (r : Nat)
    (h0 : s.remaining ≠ 0) :
    (drawCard s (.ok ⟨some (c :: cs), r⟩)).2 = true ∧
    (drawCard s (.ok ⟨some (c :: cs), r⟩)).1.cardImage = some c.image ∧
    (drawCard s (.ok ⟨some (c :: cs), r⟩)).1.remaining = r := by
  rw [drawCard_success_fst s c cs r h0, drawCard_success_snd s c cs r h0]
  exact ⟨rfl, rfl, rfl⟩

/-- C5 witness: a concrete successful draw at the polling state. -/
theorem drawCard_success_updates_witness :
    pollingState.remaining ≠ 0 ∧
    ((drawCard pollingState (.ok ⟨some (Card.mk "https://example.com/2H.png" :: []), 2⟩)).2 = true ∧
     (drawCard pollingState (.ok ⟨some (Card.mk "https://example.com/2H.png" :: []), 2⟩)).1.cardImage =
       some (Card.mk "https://example.com/2H.png").image ∧
     (drawCard pollingState (.ok ⟨some (Card.mk "https://example.com/2H.png" :: []), 2⟩)).1.remaining = 2) :=
  ⟨by decide,
    drawCard_success_updates pollingState (Card.mk "https://example.com/2H.png") [] 2 (by decide)⟩

/-- C6: shuffle sets the busy flag before the request; on success it takes
`remaining` from the response, clears the card image and clears the busy
flag; on failure it sets "Failed to shuffle deck." and clears the busy
flag; on both paths the busy flag is false at completion. -/
theorem shuffleDeck_busy_protocol (s : AppState) :
    (shuffleStart s).isShuffling = true ∧
    (∀ d, (shuffleDeck s (.ok d)).remaining = d.remaining ∧
          (shuffleDeck s (.ok d)).cardImage = none ∧
          (shuffleDeck s (.ok d)).isShuffling = false) ∧
    ((shuffleDeck s .err).error = some "Failed to shuffle deck." ∧
     (shuffleDeck s .err).isShuffling = false) ∧
    (∀ r, (shuffleDeck s r).isShuffling = false) := by
  refine ⟨rfl, fun d => ⟨rfl, rfl, rfl⟩, ⟨rfl, rfl⟩, fun r => ?_⟩
  cases r <;> rfl

/-- One polling toggle preserves the interval-ownership invariant. -/
lemma handleDraw_intervalInv (s : AppState) (hinv : IntervalInv s) :
    IntervalInv (handleDraw s) := by
  rcases intervalInv_cases s hinv with hl | ⟨k, hk, hl⟩
  · cases href : s.intervalRef with
    | some h =>
      rw [handleDraw_some s h href]
      unfold IntervalInv
      simp [hl]
    | none =>
      rw [handleDraw_none s href]
      unfold IntervalInv
      simp [hl]
  · rw [handleDraw_some s k hk]
    unfold IntervalInv
    simp [hl]

/-- C7: from any polling state (handle presence matching the active flag,
single owned timer), two consecutive togglePolling calls restore the
polling state — handle presence and active flag — and any sequence of
toggles leaves at most one live repeating timer. -/
theorem handleDraw_toggle_pair (s : AppState) (hp : PollInv s) (hi : IntervalInv s) :
    (handleDraw (handleDraw s)).intervalRef.isSome = s.intervalRef.isSome ∧
    (handleDraw (handleDraw s)).isDrawing = s.isDrawing ∧
    (∀ n, (handleDraw^[n] s).liveIntervals.length ≤ 1) := by
  have key : ∀ n, IntervalInv (handleDraw^[n] s) := by
    intro n
    induction n with
    | zero => exact hi
    | succ n ih =>
      rw [Function.iterate_succ_apply']
      exact handleDraw_intervalInv _ ih
  refine ⟨?_, ?_, fun n => (key n).1⟩
  · cases href : s.intervalRef with
    | some h =>
      rw [handleDraw_some s h href, handleDraw_none _ rfl]
      rfl
    | none =>
      rw [handleDraw_none s href, handleDraw_some _ s.nextHandle rfl]
  · unfold PollInv at hp
    cases href : s.intervalRef with
    | some h =>
      rw [href] at hp
      rw [handleDraw_some s h href, handleDraw_none _ rfl]
      exact hp
    | none =>
      rw [href] at hp
      rw [handleDraw_none s href, handleDraw_some _ s.nextHandle rfl]
      exact hp

/-- C7 witness: the toggle pair at the concrete polling state. -/
theorem handleDraw_toggle_pair_witness :
    PollInv pollingState ∧ IntervalInv pollingState ∧
    (handleDraw (handleDraw pollingState)).isDrawing = pollingState.isDrawing :=
  ⟨by decide, by decide,
    (handleDraw_toggle_pair pollingState (by decide) (by decide)).2.1⟩

/-- C8: the shuffle-speed preference flips between exactly the constants
1000 and 500 — it stays in that pair and toggling twice restores it — and
the preference is never applied to any timer: a toggle that starts polling
always installs a 1000 ms interval, whatever the stored preference. -/
theorem handleShuffleSpeed_toggle (s : AppState)
    (hs : s.shuffleSpeed = 1000 ∨ s.shuffleSpeed = 500) :
    ((handleShuffleSpeed s).shuffleSpeed = 1000 ∨
      (handleShuffleSpeed s).shuffleSpeed = 500) ∧
    (handleShuffleSpeed s).shuffleSpeed ≠ s.shuffleSpeed ∧
    (handleShuffleSpeed (handleShuffleSpeed s)).shuffleSpeed = s.shuffleSpeed ∧
    (s.intervalRef = none →
      (handleDraw s).liveIntervals = (s.nextHandle, 1000) :: s.liveIntervals ∧
      (handleDraw s).intervalRef = some s.nextHandle) := by
  refine ⟨?_, ?_, ?_, fun href => by rw [handleDraw_none s href]; exact ⟨rfl, rfl⟩⟩ <;>
    rcases hs with h | h <;> simp [handleShuffleSpeed, h]

/-- C8 witness: the toggle applied twice at the initial state. -/
theorem handleShuffleSpeed_toggle_witness :
    (initState.shuffleSpeed = 1000 ∨ initState.shuffleSpeed = 500) ∧
    (handleShuffleSpeed (handleShuffleSpeed initState)).shuffleSpeed =
      initState.shuffleSpeed :=
  ⟨by decide, (handleShuffleSpeed_toggle initState (by decide)).2.2.1⟩

/-- C9: a successful draw changes only the card image and the remaining
count; the error message, its visibility, the hide-timer ref and pending
timeouts, the polling timer and flag, the busy flag, the deck id, the
speed preference and the handle counter are all unchanged, so a
still-visible banner persists with its previously scheduled timer. -/
theorem drawCard_success_frame (s : AppState) (c : Card) (cs : List Card) (r : Nat)
    (h0 : s.remaining ≠ 0) :
    (drawCard s (.ok ⟨some (c :: cs), r⟩)).1.error = s.error ∧
    (drawCard s (.ok ⟨some (c :: cs), r⟩)).1.errorMessageVisible = s.errorMessageVisible ∧
    (drawCard s (.ok ⟨some (c :: cs), r⟩)).1.errorTimeoutRef = s.errorTimeoutRef ∧
    (drawCard s (.ok ⟨some (c :: cs), r⟩)).1.pendingTimeouts = s.pendingTimeouts ∧
    (drawCard s (.ok ⟨some (c :: cs), r⟩)).1.intervalRef = s.intervalRef ∧
    (drawCard s (.ok ⟨some (c :: cs), r⟩)).1.liveIntervals = s.liveIntervals ∧
    (drawCard s (.ok ⟨some (c :: cs), r⟩)).1.isDrawing = s.isDrawing ∧
    (drawCard s (.ok ⟨some (c :: cs), r⟩)).1.isShuffling = s.isShuffling ∧
    (drawCard s (.ok ⟨some (c :: cs), r⟩)).1.deckId = s.deckId ∧
    (drawCard s (.ok ⟨some (c :: cs), r⟩)).1.shuffleSpeed = s.shuffleSpeed ∧
    (drawCard s (.ok ⟨some (c :: cs), r⟩)).1.nextHandle = s.nextHandle := by
  rw [drawCard_success_fst s c cs r h0]
  exact ⟨rfl, rfl, rfl, rfl, rfl, rfl, rfl, rfl, rfl, rfl, rfl⟩

/-- C9 witness: a successful draw at a state with a visible error banner
and a pending hide timer leaves both untouched. -/
theorem drawCard_success_frame_witness :
    bannerState.remaining ≠ 0 ∧
    (drawCard bannerState (.ok ⟨some (Card.mk "u" :: []), 2⟩)).1.errorMessageVisible =
      bannerState.errorMessageVisible ∧
    (drawCard bannerState (.ok ⟨some (Card.mk "u" :: []), 2⟩)).1.pendingTimeouts =
      bannerState.pendingTimeouts :=
  ⟨by decide,
    (drawCard_success_frame bannerState (Card.mk "u") [] 2 (by decide)).2.1,
    (drawCard_success_frame bannerState (Card.mk "u") [] 2 (by decide)).2.2.2.1⟩

/-- C10: shuffle touches neither the polling state nor the deck id on
either path, and on failure it also leaves the remaining count and the
card image unchanged. -/
theorem shuffleDeck_frame (s : AppState) :
    (∀ r, (shuffleDeck s r).intervalRef = s.intervalRef ∧
          (shuffleDeck s r).liveIntervals = s.liveIntervals ∧
          (shuffleDeck s r).isDrawing = s.isDrawing ∧
          (shuffleDeck s r).deckId = s.deckId) ∧
    ((shuffleDeck s .err).remaining = s.remaining ∧
     (shuffleDeck s .err).cardImage = s.cardImage) := by
  refine ⟨fun r => ?_, ⟨rfl, rfl⟩⟩
  cases r <;> exact ⟨rfl, rfl, rfl, rfl⟩

end CardDrawer
